import Mathlib

/-!
# QuestCam2AR — verification of the panel-to-world ray pipeline

Shallow embedding of the core systems of the repository:

* `camera-panel-system.ts` — head-locked camera panel; publishes
  `globals.cameraImageMapping` every drawn frame.
* `controller-panel-tap-system.ts` — right-controller hover/click producing
  panel UVs (`panelHoverUv`, `tapState.pendingRayUv`).
* `tap-hit-debug-system.ts` — panel UV → image UV → world ray → XR hit-test
  state machine driving the reticle.

JavaScript numeric behaviour that matters to the claims (absent object
fields read as `undefined`, arithmetic on `undefined` producing `NaN`,
`NaN` propagation through `Math.min`/`Math.max`) is modelled by the
`JsNum` type below.  Real-valued geometry (vectors, quaternions, matrices
of three.js) is modelled over `ℝ` further down.
-/

namespace QuestCam

/-- A JavaScript number as read off an object field: `undef` models reading
an absent property (`undefined`); `nan`, signed infinities and finite
values (as exact rationals) model the IEEE doubles the code manipulates.
Every arithmetic operation first coerces `undef` to `nan` (`ToNumber`). -/
inductive JsNum where
  | undef
  | nan
  | posInf
  | negInf
  | fin (q : ℚ)
deriving DecidableEq

/-- JavaScript addition (`a + b`). -/
def JsNum.add : JsNum → JsNum → JsNum
  | .undef, _ => .nan
  | _, .undef => .nan
  | .nan, _ => .nan
  | _, .nan => .nan
  | .posInf, .negInf => .nan
  | .negInf, .posInf => .nan
  | .posInf, _ => .posInf
  | _, .posInf => .posInf
  | .negInf, _ => .negInf
  | _, .negInf => .negInf
  | .fin a, .fin b => .fin (a + b)

/-- JavaScript subtraction (`a - b`). -/
def JsNum.sub : JsNum → JsNum → JsNum
  | .undef, _ => .nan
  | _, .undef => .nan
  | .nan, _ => .nan
  | _, .nan => .nan
  | .posInf, .posInf => .nan
  | .negInf, .negInf => .nan
  | .posInf, _ => .posInf
  | .negInf, _ => .negInf
  | .fin _, .posInf => .negInf
  | .fin _, .negInf => .posInf
  | .fin a, .fin b => .fin (a - b)

/-- JavaScript multiplication (`a * b`). -/
def JsNum.mul : JsNum → JsNum → JsNum
  | .undef, _ => .nan
  | _, .undef => .nan
  | .nan, _ => .nan
  | _, .nan => .nan
  | .posInf, .posInf => .posInf
  | .posInf, .negInf => .negInf
  | .negInf, .posInf => .negInf
  | .negInf, .negInf => .posInf
  | .posInf, .fin b => if b = 0 then .nan else if 0 < b then .posInf else .negInf
  | .fin a, .posInf => if a = 0 then .nan else if 0 < a then .posInf else .negInf
  | .negInf, .fin b => if b = 0 then .nan else if 0 < b then .negInf else .posInf
  | .fin a, .negInf => if a = 0 then .nan else if 0 < a then .negInf else .posInf
  | .fin a, .fin b => .fin (a * b)

/-- JavaScript division (`a / b`).  (The sign of a zero divisor is taken
positive; the code never produces a negative zero on the divided paths.) -/
def JsNum.div : JsNum → JsNum → JsNum
  | .undef, _ => .nan
  | _, .undef => .nan
  | .nan, _ => .nan
  | _, .nan => .nan
  | .posInf, .posInf => .nan
  | .posInf, .negInf => .nan
  | .negInf, .posInf => .nan
  | .negInf, .negInf => .nan
  | .posInf, .fin b => if 0 ≤ b then .posInf else .negInf
  | .negInf, .fin b => if 0 ≤ b then .negInf else .posInf
  | .fin _, .posInf => .fin 0
  | .fin _, .negInf => .fin 0
  | .fin a, .fin b =>
      if b = 0 then (if a = 0 then .nan else if 0 < a then .posInf else .negInf)
      else .fin (a / b)

/-- `Math.min(a, b)`: `NaN` if either argument is `NaN`. -/
def JsNum.jmin : JsNum → JsNum → JsNum
  | .undef, _ => .nan
  | _, .undef => .nan
  | .nan, _ => .nan
  | _, .nan => .nan
  | .negInf, _ => .negInf
  | _, .negInf => .negInf
  | .posInf, b => b
  | a, .posInf => a
  | .fin a, .fin b => .fin (min a b)

/-- `Math.max(a, b)`: `NaN` if either argument is `NaN`. -/
def JsNum.jmax : JsNum → JsNum → JsNum
  | .undef, _ => .nan
  | _, .undef => .nan
  | .nan, _ => .nan
  | _, .nan => .nan
  | .posInf, _ => .posInf
  | _, .posInf => .posInf
  | .negInf, b => b
  | a, .negInf => a
  | .fin a, .fin b => .fin (max a b)

/-- `THREE.MathUtils.clamp(value, min, max) = Math.max(min, Math.min(max, value))`. -/
def jsClamp (value lo hi : JsNum) : JsNum := JsNum.jmax lo (JsNum.jmin hi value)

/-- The shape `TapHitDebugSystem` destructures out of
`globals.cameraImageMapping` (tap-hit-debug-system.ts, lines 25–34 and
258–267).  All eight properties are read; a property the publisher never
set reads as `JsNum.undef`. -/
structure CameraImageMappingObj where
  srcW : JsNum
  srcH : JsNum
  panelW : JsNum
  panelH : JsNum
  renderW : JsNum
  renderH : JsNum
  offsetX : JsNum
  offsetY : JsNum
deriving DecidableEq

/-- camera-panel-system.ts line 20: backing canvas width. -/
def PANEL_W : ℚ := 1280

/-- camera-panel-system.ts line 21: backing canvas height. -/
def PANEL_H : ℚ := 1080

/-- camera-panel-system.ts lines 100–118: each drawn frame the panel
renderer reads the frame size, bails out when a dimension is `0` (falsy),
draws the frame stretched over the whole canvas (no letterbox) and
publishes `globals.cameraImageMapping = { srcW, srcH, panelW: dstW,
panelH: dstH }` — an object carrying only those four properties, so the
letterbox fields read as `undefined` downstream. -/
def cameraPanelPublishMapping (srcW srcH : ℚ) : Option CameraImageMappingObj :=
  if srcW = 0 ∨ srcH = 0 then none
  else some
    { srcW := .fin srcW, srcH := .fin srcH
      panelW := .fin PANEL_W, panelH := .fin PANEL_H
      renderW := .undef, renderH := .undef
      offsetX := .undef, offsetY := .undef }

/-- tap-hit-debug-system.ts lines 269–275: panel UV → panel pixels →
letterboxed camera-region UV, before clamping. -/
def panelUvToCamUv (u v : JsNum) (m : CameraImageMappingObj) : JsNum × JsNum :=
  let px := u.mul m.panelW
  let py := v.mul m.panelH
  let camU := (px.sub m.offsetX).div m.renderW
  let camV := (py.sub m.offsetY).div m.renderH
  (camU, camV)

/-- tap-hit-debug-system.ts lines 277–283: the raw image UV clamped to
`[0,1]` on both axes. -/
def panelUvToImageUv (u v : JsNum) (m : CameraImageMappingObj) : JsNum × JsNum :=
  let raw := panelUvToCamUv u v m
  (jsClamp raw.1 (.fin 0) (.fin 1), jsClamp raw.2 (.fin 0) (.fin 1))

/-- The aspect-preserving letterbox fit exactly as the spec words it
(§4.1): the mapping the spec asserts the Panel Renderer publishes.  Kept
as a second, spec-side definition to compare with
`cameraPanelPublishMapping`, which is translated from the code. -/
structure LetterboxFitResult where
  renderW : ℚ
  renderH : ℚ
  offsetX : ℚ
  offsetY : ℚ
deriving DecidableEq

/-- Spec §4.1 fit algorithm: width-constrained when
`sourceAspect > panelAspect`, otherwise height-constrained symmetrically. -/
def letterboxFit (srcW srcH panelW panelH : ℚ) : LetterboxFitResult :=
  let srcAspect := srcW / srcH
  let panelAspect := panelW / panelH
  if panelAspect < srcAspect then
    let rh : ℤ := round (panelW / srcAspect)
    { renderW := panelW, renderH := (rh : ℚ)
      offsetX := 0, offsetY := ((⌊(panelH - (rh : ℚ)) / 2⌋ : ℤ) : ℚ) }
  else
    let rw : ℤ := round (panelH * srcAspect)
    { renderW := (rw : ℚ), renderH := panelH
      offsetX := ((⌊(panelW - (rw : ℚ)) / 2⌋ : ℤ) : ℚ), offsetY := 0 }

/-! ## three.js geometry over exact reals

Vectors, quaternions and matrices as the code uses them.  Matrix elements
follow three.js's column-major `elements` array: `e0..e15` with
`e[c*4+r]` the entry at row `r`, column `c`. -/

noncomputable section

/-- `THREE.Vector3`. -/
structure V3 where
  x : ℝ
  y : ℝ
  z : ℝ

/-- `THREE.Quaternion` (components `x, y, z, w`). -/
structure QuatT where
  x : ℝ
  y : ℝ
  z : ℝ
  w : ℝ

/-- `Vector3.add`. -/
def V3.add (a b : V3) : V3 := ⟨a.x + b.x, a.y + b.y, a.z + b.z⟩

/-- `Vector3.sub`. -/
def V3.sub (a b : V3) : V3 := ⟨a.x - b.x, a.y - b.y, a.z - b.z⟩

/-- `Vector3.multiplyScalar`. -/
def V3.multiplyScalar (v : V3) (s : ℝ) : V3 := ⟨v.x * s, v.y * s, v.z * s⟩

/-- `Vector3.dot`. -/
def V3.dot (a b : V3) : ℝ := a.x * b.x + a.y * b.y + a.z * b.z

/-- `Vector3.crossVectors`. -/
def V3.cross (a b : V3) : V3 :=
  ⟨a.y * b.z - a.z * b.y, a.z * b.x - a.x * b.z, a.x * b.y - a.y * b.x⟩

/-- `x*x + y*y + z*z` (`Vector3.lengthSq`). -/
def V3.normSq (v : V3) : ℝ := v.x * v.x + v.y * v.y + v.z * v.z

/-- `Vector3.length`. -/
def V3.length (v : V3) : ℝ := Real.sqrt v.normSq

/-- `Vector3.normalize`: `divideScalar(length() || 1)`, so the zero vector
is left unchanged and any other vector is scaled to unit length. -/
def V3.normalize (v : V3) : V3 :=
  v.multiplyScalar (1 / (if v.length = 0 then 1 else v.length))

/-- `Vector3.applyQuaternion` (three.js formula
`v + q.w*t + cross(q.xyz, t)` with `t = 2*cross(q.xyz, v)`). -/
def V3.applyQuaternion (v : V3) (q : QuatT) : V3 :=
  let tx := 2 * (q.y * v.z - q.z * v.y)
  let ty := 2 * (q.z * v.x - q.x * v.z)
  let tz := 2 * (q.x * v.y - q.y * v.x)
  ⟨v.x + q.w * tx + q.y * tz - q.z * ty,
   v.y + q.w * ty + q.z * tx - q.x * tz,
   v.z + q.w * tz + q.x * ty - q.y * tx⟩

/-- `x² + y² + z² + w²` of a quaternion. -/
def quatNormSq (q : QuatT) : ℝ := q.x * q.x + q.y * q.y + q.z * q.z + q.w * q.w

/-- `THREE.Matrix4` (column-major `elements`). -/
structure M4 where
  e0 : ℝ
  e1 : ℝ
  e2 : ℝ
  e3 : ℝ
  e4 : ℝ
  e5 : ℝ
  e6 : ℝ
  e7 : ℝ
  e8 : ℝ
  e9 : ℝ
  e10 : ℝ
  e11 : ℝ
  e12 : ℝ
  e13 : ℝ
  e14 : ℝ
  e15 : ℝ

/-- `Vector3.applyMatrix4`, including the perspective divide
`w = 1 / (e3*x + e7*y + e11*z + e15)`.  (Lean's `1/0 = 0` stands in for the
JavaScript infinity; every theorem that touches this operation assumes the
denominator is non-zero, which makes the two semantics agree.) -/
def V3.applyMatrix4 (v : V3) (m : M4) : V3 :=
  let w := 1 / (m.e3 * v.x + m.e7 * v.y + m.e11 * v.z + m.e15)
  ⟨(m.e0 * v.x + m.e4 * v.y + m.e8 * v.z + m.e12) * w,
   (m.e1 * v.x + m.e5 * v.y + m.e9 * v.z + m.e13) * w,
   (m.e2 * v.x + m.e6 * v.y + m.e10 * v.z + m.e14) * w⟩

/-- The perspective-divide denominator of `Vector3.applyMatrix4`. -/
def applyM4Den (m : M4) (v : V3) : ℝ := m.e3 * v.x + m.e7 * v.y + m.e11 * v.z + m.e15

/-- `Matrix4.multiply`: `this = this * m` (row-by-column on the
column-major element arrays). -/
def M4.multiply (a b : M4) : M4 :=
  { e0 := a.e0 * b.e0 + a.e4 * b.e1 + a.e8 * b.e2 + a.e12 * b.e3
    e1 := a.e1 * b.e0 + a.e5 * b.e1 + a.e9 * b.e2 + a.e13 * b.e3
    e2 := a.e2 * b.e0 + a.e6 * b.e1 + a.e10 * b.e2 + a.e14 * b.e3
    e3 := a.e3 * b.e0 + a.e7 * b.e1 + a.e11 * b.e2 + a.e15 * b.e3
    e4 := a.e0 * b.e4 + a.e4 * b.e5 + a.e8 * b.e6 + a.e12 * b.e7
    e5 := a.e1 * b.e4 + a.e5 * b.e5 + a.e9 * b.e6 + a.e13 * b.e7
    e6 := a.e2 * b.e4 + a.e6 * b.e5 + a.e10 * b.e6 + a.e14 * b.e7
    e7 := a.e3 * b.e4 + a.e7 * b.e5 + a.e11 * b.e6 + a.e15 * b.e7
    e8 := a.e0 * b.e8 + a.e4 * b.e9 + a.e8 * b.e10 + a.e12 * b.e11
    e9 := a.e1 * b.e8 + a.e5 * b.e9 + a.e9 * b.e10 + a.e13 * b.e11
    e10 := a.e2 * b.e8 + a.e6 * b.e9 + a.e10 * b.e10 + a.e14 * b.e11
    e11 := a.e3 * b.e8 + a.e7 * b.e9 + a.e11 * b.e10 + a.e15 * b.e11
    e12 := a.e0 * b.e12 + a.e4 * b.e13 + a.e8 * b.e14 + a.e12 * b.e15
    e13 := a.e1 * b.e12 + a.e5 * b.e13 + a.e9 * b.e14 + a.e13 * b.e15
    e14 := a.e2 * b.e12 + a.e6 * b.e13 + a.e10 * b.e14 + a.e14 * b.e15
    e15 := a.e3 * b.e12 + a.e7 * b.e13 + a.e11 * b.e14 + a.e15 * b.e15 }

/-- `Matrix4.compose(position, quaternion, scale)` at unit scale — exactly
how the code builds the lens matrix (`new THREE.Matrix4().compose(lensT,
lensQ, new THREE.Vector3(1,1,1))`), and the canonical form of a rigid
transform used in validity hypotheses. -/
def composeTQ (t : V3) (q : QuatT) : M4 :=
  let x2 := q.x + q.x
  let y2 := q.y + q.y
  let z2 := q.z + q.z
  let xx := q.x * x2
  let xy := q.x * y2
  let xz := q.x * z2
  let yy := q.y * y2
  let yz := q.y * z2
  let zz := q.z * z2
  let wx := q.w * x2
  let wy := q.w * y2
  let wz := q.w * z2
  { e0 := 1 - (yy + zz), e1 := xy + wz, e2 := xz - wy, e3 := 0
    e4 := xy - wz, e5 := 1 - (xx + zz), e6 := yz + wx, e7 := 0
    e8 := xz + wy, e9 := yz - wx, e10 := 1 - (xx + yy), e11 := 0
    e12 := t.x, e13 := t.y, e14 := t.z, e15 := 1 }

/-- `Matrix4.determinant` (three.js cofactor expansion along the last
row). -/
def M4.determinant (m : M4) : ℝ :=
  let n11 := m.e0
  let n21 := m.e1
  let n31 := m.e2
  let n41 := m.e3
  let n12 := m.e4
  let n22 := m.e5
  let n32 := m.e6
  let n42 := m.e7
  let n13 := m.e8
  let n23 := m.e9
  let n33 := m.e10
  let n43 := m.e11
  let n14 := m.e12
  let n24 := m.e13
  let n34 := m.e14
  let n44 := m.e15
  n41 * (n14 * n23 * n32 - n13 * n24 * n32 - n14 * n22 * n33
          + n12 * n24 * n33 + n13 * n22 * n34 - n12 * n23 * n34)
    + n42 * (n11 * n23 * n34 - n11 * n24 * n33 + n14 * n21 * n33
          - n13 * n21 * n34 + n13 * n24 * n31 - n14 * n23 * n31)
    + n43 * (n11 * n24 * n32 - n11 * n22 * n34 - n14 * n21 * n32
          + n12 * n21 * n34 + n14 * n22 * n31 - n12 * n24 * n31)
    + n44 * (-(n13 * n22 * n31) - n11 * n23 * n32 + n11 * n22 * n33
          + n13 * n21 * n32 - n12 * n21 * n33 + n12 * n23 * n31)

/-- `Quaternion.setFromRotationMatrix` (the four-branch Shepperd
extraction used by three.js). -/
def quatFromRotationM4 (m : M4) : QuatT :=
  let m11 := m.e0
  let m12 := m.e4
  let m13 := m.e8
  let m21 := m.e1
  let m22 := m.e5
  let m23 := m.e9
  let m31 := m.e2
  let m32 := m.e6
  let m33 := m.e10
  let trace := m11 + m22 + m33
  if 0 < trace then
    let s := (0.5 : ℝ) / Real.sqrt (trace + 1)
    ⟨(m32 - m23) * s, (m13 - m31) * s, (m21 - m12) * s, (0.25 : ℝ) / s⟩
  else if m22 < m11 ∧ m33 < m11 then
    let s := 2 * Real.sqrt (1 + m11 - m22 - m33)
    ⟨(0.25 : ℝ) * s, (m12 + m21) / s, (m13 + m31) / s, (m32 - m23) / s⟩
  else if m33 < m22 then
    let s := 2 * Real.sqrt (1 + m22 - m11 - m33)
    ⟨(m12 + m21) / s, (0.25 : ℝ) * s, (m23 + m32) / s, (m13 - m31) / s⟩
  else
    let s := 2 * Real.sqrt (1 + m33 - m11 - m22)
    ⟨(m13 + m31) / s, (m23 + m32) / s, (0.25 : ℝ) * s, (m21 - m12) / s⟩

/-- Result of `Matrix4.decompose`. -/
structure Decomposed where
  position : V3
  quaternion : QuatT
  scale : V3

/-- `Matrix4.decompose(position, quaternion, scale)`: column lengths as
scales (x negated when the determinant is negative), the scale divided out
of the rotation block, then `setFromRotationMatrix`. -/
def M4.decompose (m : M4) : Decomposed :=
  let sx0 := V3.length ⟨m.e0, m.e1, m.e2⟩
  let sy := V3.length ⟨m.e4, m.e5, m.e6⟩
  let sz := V3.length ⟨m.e8, m.e9, m.e10⟩
  let det := m.determinant
  let sx := if det < 0 then -sx0 else sx0
  let invSX := 1 / sx
  let invSY := 1 / sy
  let invSZ := 1 / sz
  let r : M4 :=
    { m with
      e0 := m.e0 * invSX, e1 := m.e1 * invSX, e2 := m.e2 * invSX
      e4 := m.e4 * invSY, e5 := m.e5 * invSY, e6 := m.e6 * invSY
      e8 := m.e8 * invSZ, e9 := m.e9 * invSZ, e10 := m.e10 * invSZ }
  { position := ⟨m.e12, m.e13, m.e14⟩
    quaternion := quatFromRotationM4 r
    scale := ⟨sx, sy, sz⟩ }

/-! ## Fallback reticle placement (tap-hit-debug-system.ts 144–167) -/

/-- tap-hit-debug-system.ts line 14. -/
def FALLBACK_DISTANCE : ℝ := 2

/-- The world transform `placeReticleFallback` writes into the reticle's
matrix: `makeBasis(tangent, normal, bitangent)` puts the three vectors in
the X, Y, Z basis columns, and `setPosition(pos)` fills the translation.
The ring geometry lies in the marker's local XY plane, so its flat face
normal is the local +Z axis (`zAxis` here); the pose-based placement path
(`placeReticleAtPoseMatrix`) instead treats local +Y as the surface
normal. -/
structure ReticleBasis where
  pos : V3
  xAxis : V3
  yAxis : V3
  zAxis : V3

/-- `placeReticleFallback(origin, dir)`: marker at
`origin + dir * FALLBACK_DISTANCE`, basis `tangent = (up × n̂).normalize`,
`normal = n̂ = dir.normalize`, `bitangent = (n̂ × tangent).normalize`,
with `up = (1,0,0)` when `|n̂.y| > 0.9`, else `(0,1,0)`. -/
def placeReticleFallback (origin dir : V3) : ReticleBasis :=
  let pos := origin.add (dir.multiplyScalar FALLBACK_DISTANCE)
  let normal := dir.normalize
  let up : V3 := if (0.9 : ℝ) < |normal.y| then ⟨1, 0, 0⟩ else ⟨0, 1, 0⟩
  let tangent := (up.cross normal).normalize
  let bitangent := (normal.cross tangent).normalize
  { pos := pos, xAxis := tangent, yAxis := normal, zAxis := bitangent }

/-! ## Ray reconstruction (tap-hit-debug-system.ts 285–402) -/

/-- Camera intrinsics record (tap-hit-debug-system.ts 36–46).  The
`distortion` array is never read by the ray path and is omitted. -/
structure CameraIntrinsicsR where
  width : ℝ
  height : ℝ
  fx : ℝ
  fy : ℝ
  cx : ℝ
  cy : ℝ
  lensRotation : Option QuatT
  lensTranslation : Option V3

/-- The `useIntrinsics` guard (lines 308–317): record present, numeric
fields truthy (non-zero — `NaN` does not occur in the real-valued model)
and the lens pose present.  `cx !== undefined` and `cy !== undefined`
always hold for a present record. -/
def UseIntrinsics : Option CameraIntrinsicsR → Prop
  | none => False
  | some i => i.width ≠ 0 ∧ i.height ≠ 0 ∧ i.fx ≠ 0 ∧ i.fy ≠ 0
      ∧ i.lensRotation.isSome ∧ i.lensTranslation.isSome

/-- The calibrated (pinhole intrinsics + lens pose) ray path, lines
319–362: image UV → calibration pixels → inverse pinhole → camera-space
direction; camera pose = `viewerMat * lensMat`, decomposed; ray origin is
the decomposed position and the direction is the camera-space direction
rotated by the decomposed quaternion, normalized.  (The lens fields are
read under the `UseIntrinsics` guard, which guarantees they are present;
`getD` renders the non-null assertion.) -/
def calibratedRay (intr : CameraIntrinsicsR) (viewerMat : M4)
    (uImg vImg : ℝ) : V3 × V3 :=
  let xPix := uImg * intr.width
  let yPix := vImg * intr.height
  let xCam := (xPix - intr.cx) / intr.fx
  let yCam := (yPix - intr.cy) / intr.fy
  let dirCam : V3 := V3.normalize ⟨xCam, yCam, 1⟩
  let lensQ := intr.lensRotation.getD ⟨0, 0, 0, 1⟩
  let lensT := intr.lensTranslation.getD ⟨0, 0, 0⟩
  let lensMat := composeTQ lensT lensQ
  let camMatRef := viewerMat.multiply lensMat
  let d := camMatRef.decompose
  (d.position, (dirCam.applyQuaternion d.quaternion).normalize)

/-- The viewer camera as the uncalibrated path sees it. -/
structure CameraM where
  projectionMatrixInverse : M4
  matrixWorld : M4

/-- `Object3D.getWorldPosition` for the camera: the translation column of
its world matrix. -/
def cameraWorldPosition (c : CameraM) : V3 :=
  ⟨c.matrixWorld.e12, c.matrixWorld.e13, c.matrixWorld.e14⟩

/-- `Vector3.unproject(camera)`:
`applyMatrix4(projectionMatrixInverse).applyMatrix4(matrixWorld)`. -/
def V3.unproject (v : V3) (c : CameraM) : V3 :=
  (v.applyMatrix4 c.projectionMatrixInverse).applyMatrix4 c.matrixWorld

/-- The NDC point `(u*2−1, 1−v*2, −1)` shared by lines 295–298 and
382–385. -/
def ndcPoint (uImg vImg : ℝ) : V3 := ⟨uImg * 2 - 1, 1 - vImg * 2, -1⟩

/-- The uncalibrated "unproject from HMD camera" ray (lines 293–300 and
381–389): origin at the camera's world position, direction towards the
unprojected NDC point, normalized. -/
def ndcFallbackRay (c : CameraM) (uImg vImg : ℝ) : V3 × V3 :=
  let worldPoint := (ndcPoint uImg vImg).unproject c
  let originRef := cameraWorldPosition c
  (originRef, (worldPoint.sub originRef).normalize)

/-! ## The hit-test orchestrator state machine
(tap-hit-debug-system.ts 193–447)

One call of `TapHitDebugSystem.update` is modelled as an atomic tick, per
the spec's single-threaded cooperative model (§5): requesting a probe is
fire-and-forget and results are polled. -/

/-- tap-hit-debug-system.ts line 15. -/
def HIT_TIMEOUT : ℝ := 0.4

/-- tap-hit-debug-system.ts line 18. -/
def RETICLE_Z_OFFSET : ℝ := 0.002

/-- `Quaternion.multiply` (`this = this * q`). -/
def quatMul (a b : QuatT) : QuatT :=
  ⟨a.x * b.w + a.w * b.x + a.y * b.z - a.z * b.y,
   a.y * b.w + a.w * b.y + a.z * b.x - a.x * b.z,
   a.z * b.w + a.w * b.z + a.x * b.y - a.y * b.x,
   a.w * b.w - a.x * b.x - a.y * b.y - a.z * b.z⟩

/-- `reticlePreRot` (lines 64–66): the quaternion of the Euler rotation
`(−π/2, 0, 0)`, i.e. `(sin(−π/4), 0, 0, cos(−π/4))`. -/
def reticlePreRot : QuatT := ⟨-(Real.sqrt 2 / 2), 0, 0, Real.sqrt 2 / 2⟩

/-- A placed reticle pose (position, orientation, scale). -/
structure ReticlePose where
  pos : V3
  quat : QuatT
  scale : V3

/-- `placeReticleAtPoseMatrix` (lines 120–142): decompose the hit pose,
post-multiply by `reticlePreRot`, offset the position along the adjusted
+Y normal by `RETICLE_Z_OFFSET`. -/
def placeReticleAtPoseMatrix (poseMatrix : M4) : ReticlePose :=
  let d := poseMatrix.decompose
  let quat := quatMul d.quaternion reticlePreRot
  let normal := (V3.applyQuaternion ⟨0, 1, 0⟩ quat).normalize
  let pos := d.position.add (normal.multiplyScalar RETICLE_Z_OFFSET)
  { pos := pos, quat := quat, scale := d.scale }

/-- An `(u, v)` panel coordinate. -/
structure Uv where
  u : ℝ
  v : ℝ

/-- The shared `tapState` record (`globals.tapHitState`). -/
structure TapHitState where
  lastTapUv : Option Uv
  pendingRayUv : Option Uv

/-- A recorded ray (`this.pendingRayRef`). -/
structure RayRef where
  origin : V3
  dir : V3

/-- `TapHitDebugSystem`'s persistent mutable fields (lines 58–61). -/
structure OrchState where
  activeHitSource : Option ℕ
  pendingRayRef : Option RayRef
  timeSinceTap : ℝ

/-- The mapping as the orchestrator destructures it, with all eight fields
present and finite (the idealized well-formed case; what actually happens
with the published four-field object is the `JsNum` analysis above). -/
structure MappingR where
  srcW : ℝ
  srcH : ℝ
  panelW : ℝ
  panelH : ℝ
  renderW : ℝ
  renderH : ℝ
  offsetX : ℝ
  offsetY : ℝ

/-- Everything one tick of `TapHitDebugSystem.update` reads from its
surroundings: `frameAndSpaces` is `xrFrame` and the awaited spaces being
available; `hitResults` models `frame.getHitTestResults(activeHitSource)`
(each result's `getPose(refSpace)` may itself fail, hence `Option M4`);
`requestOutcome` models the awaited `requestHitTestSource` promise
(`none` = rejection, caught at line 440). -/
structure OrchEnv where
  dt : ℝ
  frameAndSpaces : Bool
  hitResults : List (Option M4)
  tapState : Option TapHitState
  mapping : Option MappingR
  intrinsics : Option CameraIntrinsicsR
  viewerPose : Option M4
  camera : CameraM
  hitTestApi : Bool
  requestOutcome : Option ℕ

/-- What the reticle gets this tick. -/
inductive ReticleCmd where
  | atPose (p : ReticlePose)
  | fallback (b : ReticleBasis)

/-- Observable effects of one tick: whether `requestHitTestSource` was
invoked, whether the active source was cancelled, the reticle update (if
any), and the tap state after any consumption. -/
structure OrchOut where
  requested : Bool
  cancelled : Bool
  reticle : Option ReticleCmd
  tapStateAfter : Option TapHitState

/-- The no-effect output of a tick that returns early without touching
anything. -/
def unchangedOut (env : OrchEnv) : OrchOut :=
  { requested := false, cancelled := false, reticle := none
    tapStateAfter := env.tapState }

/-- `THREE.MathUtils.clamp` over reals. -/
def clampR (value lo hi : ℝ) : ℝ := max lo (min hi value)

/-- Section 1 of `update` (lines 207–238): an active hit-test source is
polled; a result resolves it (pose placement when the pose resolves),
otherwise the accumulated time is checked against `HIT_TIMEOUT` with the
recorded ray. -/
def probingTick (s : OrchState) (env : OrchEnv) : OrchState × OrchOut :=
  let t := s.timeSinceTap + env.dt
  match env.hitResults with
  | r0 :: _ =>
      (⟨none, none, 0⟩,
       { requested := false, cancelled := true
         reticle := r0.map fun pm => ReticleCmd.atPose (placeReticleAtPoseMatrix pm)
         tapStateAfter := env.tapState })
  | [] =>
      match s.pendingRayRef with
      | some ray =>
          if HIT_TIMEOUT < t then
            (⟨none, none, 0⟩,
             { requested := false, cancelled := true
               reticle := some (.fallback (placeReticleFallback ray.origin ray.dir))
               tapStateAfter := env.tapState })
          else ({ s with timeSinceTap := t }, unchangedOut env)
      | none => ({ s with timeSinceTap := t }, unchangedOut env)

open Classical in
/-- Section 2 of `update` (lines 240–447): no active source.  A pending
hover sample is consumed; missing mapping drops the sample and returns;
missing viewer pose resolves via the camera fallback; otherwise the ray is
reconstructed (calibrated or NDC path) and a probe request is issued,
whose success stores the handle and whose absence/failure resolves via
fallback. -/
def idleTick (s : OrchState) (env : OrchEnv) : OrchState × OrchOut :=
  match env.tapState with
  | none => (s, unchangedOut env)
  | some ts =>
    match ts.pendingRayUv with
    | none => (s, unchangedOut env)
    | some uv =>
      let ts' : TapHitState := { ts with pendingRayUv := none }
      match env.mapping with
      | none =>
          (s, { requested := false, cancelled := false, reticle := none
                tapStateAfter := some ts' })
      | some m =>
        let px := uv.u * m.panelW
        let py := uv.v * m.panelH
        let camU := (px - m.offsetX) / m.renderW
        let camV := (py - m.offsetY) / m.renderH
        let uImg := clampR camU 0 1
        let vImg := clampR camV 0 1
        match env.viewerPose with
        | none =>
            let ray := ndcFallbackRay env.camera uImg vImg
            ({ s with pendingRayRef := none },
             { requested := false, cancelled := false
               reticle := some (.fallback (placeReticleFallback ray.1 ray.2))
               tapStateAfter := some ts' })
        | some viewerMat =>
          let ray : V3 × V3 :=
            if UseIntrinsics env.intrinsics then
              match env.intrinsics with
              | some intr => calibratedRay intr viewerMat uImg vImg
              | none => ndcFallbackRay env.camera uImg vImg
            else ndcFallbackRay env.camera uImg vImg
          let s1 : OrchState := ⟨none, some ⟨ray.1, ray.2⟩, 0⟩
          if env.hitTestApi = false then
            ({ s1 with pendingRayRef := none },
             { requested := false, cancelled := false
               reticle := some (.fallback (placeReticleFallback ray.1 ray.2))
               tapStateAfter := some ts' })
          else
            match env.requestOutcome with
            | some k =>
                ({ s1 with activeHitSource := some k },
                 { requested := true, cancelled := false, reticle := none
                   tapStateAfter := some ts' })
            | none =>
                (⟨none, none, 0⟩,
                 { requested := true, cancelled := false
                   reticle := some (.fallback (placeReticleFallback ray.1 ray.2))
                   tapStateAfter := some ts' })

/-- One atomic tick of `TapHitDebugSystem.update`. -/
def tapHitUpdate (s : OrchState) (env : OrchEnv) : OrchState × OrchOut :=
  if env.frameAndSpaces = false then (s, unchangedOut env)
  else
    match s.activeHitSource with
    | some _ => probingTick s env
    | none => idleTick s env

/-- Whether a tick's output resolved via fallback placement. -/
def OrchOut.isFallback (o : OrchOut) : Bool :=
  match o.reticle with
  | some (.fallback _) => true
  | _ => false

/-- Run a sequence of ticks, collecting every tick's output. -/
def tapHitRun (s : OrchState) : List OrchEnv → OrchState × List OrchOut
  | [] => (s, [])
  | e :: rest =>
      let p := tapHitUpdate s e
      let q := tapHitRun p.1 rest
      (q.1, p.2 :: q.2)

/-- A tick environment in which the probe never gets a result and no new
hover sample is pending (the spec's Scenario C). -/
def QuietEnv (e : OrchEnv) : Prop :=
  e.frameAndSpaces = true ∧ e.hitResults = [] ∧ 0 ≤ e.dt
  ∧ (∀ ts, e.tapState = some ts → ts.pendingRayUv = none)

/-- The identity matrix (a trivially valid camera/pose). -/
def idM4 : M4 := ⟨1, 0, 0, 0, 0, 1, 0, 0, 0, 0, 1, 0, 0, 0, 0, 1⟩

/-- A concrete tick environment used to instantiate the single-probe
invariant. -/
def probeEnvC : OrchEnv :=
  { dt := 1/10, frameAndSpaces := true, hitResults := [], tapState := none
    mapping := none, intrinsics := none, viewerPose := none
    camera := ⟨idM4, idM4⟩, hitTestApi := true, requestOutcome := some 1 }

/-- A concrete quiet environment (no probe result, no pending hover) with
the given tick duration. -/
def quietEnvC (dt : ℝ) : OrchEnv :=
  { dt := dt, frameAndSpaces := true, hitResults := [], tapState := none
    mapping := none, intrinsics := none, viewerPose := none
    camera := ⟨idM4, idM4⟩, hitTestApi := false, requestOutcome := none }

/-- A concrete Idle-tick environment with a pending hover sample but no
published mapping. -/
def envNoMapping : OrchEnv :=
  { dt := 0, frameAndSpaces := true, hitResults := []
    tapState := some ⟨none, some ⟨3/10, 2/5⟩⟩
    mapping := none, intrinsics := none, viewerPose := none
    camera := ⟨idM4, idM4⟩, hitTestApi := true, requestOutcome := some 1 }

/-- A concrete Idle-tick environment with a pending hover sample and a
well-formed mapping, but no viewer pose this tick. -/
def envNoViewerPose : OrchEnv :=
  { dt := 0, frameAndSpaces := true, hitResults := []
    tapState := some ⟨none, some ⟨1/2, 1/2⟩⟩
    mapping := some ⟨1920, 1080, 1280, 1080, 1280, 1080, 0, 0⟩
    intrinsics := none, viewerPose := none
    camera := ⟨idM4, idM4⟩, hitTestApi := true, requestOutcome := some 1 }

/-! ## Pointer-to-panel projection
(controller-panel-tap-system.ts 25–112) -/

/-- `XRInputSource.targetRayMode`. -/
inductive TargetRayMode where
  | gaze
  | trackedPointer
  | screen
deriving DecidableEq

/-- A pose sample (`frame.getPose(targetRaySpace, refSpace)`): position
and orientation of the target-ray space. -/
structure PoseCP where
  position : V3
  orientation : QuatT

/-- A raycast hit against the panel, as `THREE.Raycaster.intersectObject`
reports it: `uv` is the three.js texture UV of the hit (optional in the
three.js typing, hence the guard `if (hit.uv)`), `point` the 3D hit
point. -/
structure PanelHit where
  uv : Option (ℝ × ℝ)
  point : V3

/-- One `XRInputSource` as the system reads it: `handedness` is a WebXR
string (`"none" | "left" | "right"`); `targetRaySpacePresent` mirrors the
`if (!targetRaySpace) continue` guard; `pose` is the tracking answer this
tick (`null` when tracking is lost); `buttonPressed` is
`gamepad.buttons[0].pressed` with all the falsy guards folded in; `id`
identifies the source in the `prevPressed` map. -/
structure InputSourceCP where
  id : ℕ
  targetRayMode : TargetRayMode
  handedness : String
  targetRaySpacePresent : Bool
  pose : Option PoseCP
  buttonPressed : Bool

/-- The state the controller system reads and writes:
`globals.panelHoverUv`, `globals.tapHitState`,
`globals.pendingPanelHitPointRef` and the private `prevPressed` map. -/
structure ControllerGlobals where
  panelHoverUv : Option Uv
  tapState : Option TapHitState
  pendingPanelHitPointRef : Option V3
  prevPressed : List (ℕ × Bool)

/-- `this.prevPressed.set(inputSource, pressed)` on the id-keyed map. -/
def mapSet (m : List (ℕ × Bool)) (k : ℕ) (b : Bool) : List (ℕ × Bool) :=
  (k, b) :: m.filter fun p => p.1 != k

/-- The body of the `for (const inputSource of session.inputSources)` loop
(lines 45–106), folded over the accumulated
`(hoverUv, pendingPanelHitPointRef, tapState, prevPressed)`.  The skips
mirror the code's `continue`s: wrong target-ray mode; truthy handedness
that is not `"right"`; missing target-ray space; missing pose (tracking
lost — note the `prevPressed` map is not updated either).  The panel
raycast (`raycaster.intersectObject(panel)`) is the external scene
collaborator, passed as the `intersectPanel` oracle over the computed
ray. -/
def processInputSource (intersectPanel : V3 → V3 → Option PanelHit)
    (acc : Option Uv × Option V3 × TapHitState × List (ℕ × Bool))
    (src : InputSourceCP) :
    Option Uv × Option V3 × TapHitState × List (ℕ × Bool) :=
  let hoverUv := acc.1
  let php := acc.2.1
  let ts := acc.2.2.1
  let prev := acc.2.2.2
  if src.targetRayMode ≠ .trackedPointer then acc
  else if src.handedness ≠ "" ∧ src.handedness ≠ "right" then acc
  else if src.targetRaySpacePresent = false then acc
  else
    match src.pose with
    | none => acc
    | some pose =>
      let origin := pose.position
      let direction := (V3.applyQuaternion ⟨0, 0, -1⟩ pose.orientation).normalize
      let hit? := intersectPanel origin direction
      let pressed := src.buttonPressed
      let prevB := (prev.lookup src.id).getD false
      let acc1 : Option Uv × Option V3 × TapHitState :=
        match hit? with
        | none => (hoverUv, php, ts)
        | some hit =>
          match hit.uv with
          | none => (hoverUv, php, ts)
          | some uvRaw =>
            let u := uvRaw.1
            let v := 1 - uvRaw.2
            let ts1 : TapHitState := { ts with pendingRayUv := some ⟨u, v⟩ }
            if pressed = true ∧ prevB = false then
              (some ⟨u, v⟩, some hit.point, { ts1 with lastTapUv := some ⟨u, v⟩ })
            else (some ⟨u, v⟩, php, ts1)
      (acc1.1, acc1.2.1, acc1.2.2, mapSet prev src.id pressed)

/-- One tick of `ControllerPanelTapSystem.update` (lines 25–112):
early-outs when the tap state, session/frame/refSpace or panel are
missing; otherwise processes every input source and finally publishes
`globals.panelHoverUv = hoverUv` unconditionally (`null` when no source
hit the panel this tick), and `globals.pendingPanelHitPointRef` only when
a click produced one. -/
def controllerTapUpdate (intersectPanel : V3 → V3 → Option PanelHit)
    (sessionFrameRef : Bool) (panelPresent : Bool)
    (sources : List InputSourceCP) (g : ControllerGlobals) :
    ControllerGlobals :=
  match g.tapState with
  | none => g
  | some ts =>
    if sessionFrameRef = false then g
    else if panelPresent = false then g
    else
      let r := sources.foldl (processInputSource intersectPanel)
          (none, none, ts, g.prevPressed)
      { panelHoverUv := r.1
        tapState := some r.2.2.1
        pendingPanelHitPointRef :=
          match r.2.1 with
          | some p => some p
          | none => g.pendingPanelHitPointRef
        prevPressed := r.2.2.2 }

/-- The WebXR domain of `XRInputSource.handedness`. -/
def HandednessWF (s : InputSourceCP) : Prop :=
  s.handedness = "none" ∨ s.handedness = "left" ∨ s.handedness = "right"

/-- Concrete globals with a published hover and a pending sample from the
previous tick. -/
def gHover : ControllerGlobals :=
  { panelHoverUv := some ⟨1/4, 1/4⟩, tapState := some ⟨none, some ⟨1/4, 1/4⟩⟩
    pendingPanelHitPointRef := none, prevPressed := [] }

/-- A right tracked-pointer source whose pose is missing this tick
(tracking lost). -/
def lostSource : InputSourceCP := ⟨0, .trackedPointer, "right", true, none, false⟩

/-- A posed right tracked-pointer source. -/
def rightSrcC : InputSourceCP :=
  ⟨1, .trackedPointer, "right", true, some ⟨⟨0, 0, 0⟩, ⟨0, 0, 0, 1⟩⟩, true⟩

/-- A posed left tracked-pointer source. -/
def leftSrcC : InputSourceCP :=
  ⟨2, .trackedPointer, "left", true, some ⟨⟨1, 0, 0⟩, ⟨0, 0, 0, 1⟩⟩, true⟩

/-- A handedness-"none" gaze source. -/
def noneSrcC : InputSourceCP := ⟨3, .gaze, "none", true, none, false⟩

/-- A concrete complete calibration record (identity lens pose). -/
def introC : CameraIntrinsicsR :=
  ⟨1920, 1080, 100, 100, 960, 540, some ⟨0, 0, 0, 1⟩, some ⟨0, 0, 0⟩⟩

end

/-- The mapping object published for a `1920×1080` source frame: the four
fields the renderer actually sets, with every letterbox field absent. -/
def publishedMapping1920 : CameraImageMappingObj :=
  { srcW := .fin 1920, srcH := .fin 1080
    panelW := .fin 1280, panelH := .fin 1080
    renderW := .undef, renderH := .undef
    offsetX := .undef, offsetY := .undef }

end QuestCam

open QuestCam

/-- C1 counterexample: the Panel Renderer does not publish a letterbox
mapping.  For a 1920×1080 source frame the published object is exactly
`{srcW, srcH, panelW := 1280, panelH := 1080}` with the letterbox fields
absent (`undef`), while the spec's own fit algorithm would demand
`renderWidth = 1280`, `renderHeight = 720` — so the published mapping's
`renderW` is not `1280` (and the code's panel is 1280×1080, not the
claimed 1280×1280). -/
theorem c1_no_letterbox_mapping_counterexample :
    cameraPanelPublishMapping 1920 1080 = some publishedMapping1920
    ∧ (letterboxFit 1920 1080 1280 1280).renderW = 1280
    ∧ (letterboxFit 1920 1080 1280 1280).renderH = 720
    ∧ (letterboxFit 1920 1080 1280 1280).offsetY = 280
    ∧ publishedMapping1920.renderW = JsNum.undef
    ∧ JsNum.undef ≠ JsNum.fin 1280
    ∧ publishedMapping1920.panelH ≠ JsNum.fin 1280 := by
  have hfit : letterboxFit 1920 1080 1280 1280 =
      { renderW := 1280, renderH := 720, offsetX := 0, offsetY := 280 } := by
    rw [letterboxFit, if_pos (by norm_num)]
    norm_num [round_eq]
  refine ⟨by decide, ?_, ?_, ?_, by decide, by decide, by decide⟩ <;>
    simp [hfit]

/-- C1 (amended): the Panel Renderer publishes, every frame it draws (i.e.
whenever both source dimensions are non-zero), a mapping containing only
`srcW`, `srcH`, `panelW = 1280`, `panelH = 1080`; it performs no letterbox
fit — the frame is drawn stretched into the full panel — and the published
object has no `renderW`/`renderH`/`offsetX`/`offsetY` fields (they read as
`undefined`). -/
theorem c1_published_mapping (srcW srcH : ℚ) (h1 : srcW ≠ 0) (h2 : srcH ≠ 0) :
    cameraPanelPublishMapping srcW srcH = some
      { srcW := .fin srcW, srcH := .fin srcH
        panelW := .fin PANEL_W, panelH := .fin PANEL_H
        renderW := .undef, renderH := .undef
        offsetX := .undef, offsetY := .undef } := by
  simp [cameraPanelPublishMapping, h1, h2]

/-- Witness for `c1_published_mapping` at the 1920×1080 source frame. -/
theorem c1_published_mapping_witness :
    cameraPanelPublishMapping 1920 1080 = some
      { srcW := .fin 1920, srcH := .fin 1080
        panelW := .fin PANEL_W, panelH := .fin PANEL_H
        renderW := .undef, renderH := .undef
        offsetX := .undef, offsetY := .undef } :=
  c1_published_mapping 1920 1080 (by norm_num) (by norm_num)

/-- C2: for every mapping the Panel Renderer actually publishes (which
carries only `srcW`, `srcH`, `panelW`, `panelH`), the Ray Reconstructor's
panel-pixel→image-UV step reads the absent `renderW`/`renderH`/
`offsetX`/`offsetY` fields as `undefined` and divides by them, so for
every finite hover sample `(u, v)` both raw image-UV components are `NaN`,
and the clamp to `[0,1]` leaves them `NaN`. -/
theorem c2_published_mapping_gives_nan_uv (u v srcW srcH : ℚ)
    (m : CameraImageMappingObj)
    (hm : cameraPanelPublishMapping srcW srcH = some m) :
    panelUvToCamUv (.fin u) (.fin v) m = (JsNum.nan, JsNum.nan)
    ∧ panelUvToImageUv (.fin u) (.fin v) m = (JsNum.nan, JsNum.nan) := by
  unfold cameraPanelPublishMapping at hm
  split at hm
  · exact absurd hm (by simp)
  · have hm' := Option.some_injective _ hm
    subst hm'
    exact ⟨rfl, rfl⟩

/-- Witness for `c2_published_mapping_gives_nan_uv` at hover `(1/2, 1/2)`
on the mapping published for a 1920×1080 frame. -/
theorem c2_published_mapping_gives_nan_uv_witness :
    panelUvToCamUv (.fin (1/2)) (.fin (1/2)) publishedMapping1920
      = (JsNum.nan, JsNum.nan)
    ∧ panelUvToImageUv (.fin (1/2)) (.fin (1/2)) publishedMapping1920
      = (JsNum.nan, JsNum.nan) :=
  c2_published_mapping_gives_nan_uv (1/2) (1/2) 1920 1080
    publishedMapping1920 (by decide)

/-- C6: for every panel UV and every well-formed finite letterbox mapping
(positive render rectangle), the reconstructed image UV is a finite value
clamped to `[0,1]` on both axes (never `NaN`); and a panel pixel landing
strictly inside a letterbox bar clamps to exactly `0` (before the
rectangle) or exactly `1` (past the rectangle) on that axis. -/
theorem c6_image_uv_clamped (u v sw sh pw ph rw rh ox oy : ℚ)
    (hrw : 0 < rw) (hrh : 0 < rh) :
    ∀ m : CameraImageMappingObj,
      m = { srcW := .fin sw, srcH := .fin sh, panelW := .fin pw
            panelH := .fin ph, renderW := .fin rw, renderH := .fin rh
            offsetX := .fin ox, offsetY := .fin oy } →
      (∃ q1 q2 : ℚ, panelUvToImageUv (.fin u) (.fin v) m = (.fin q1, .fin q2)
          ∧ 0 ≤ q1 ∧ q1 ≤ 1 ∧ 0 ≤ q2 ∧ q2 ≤ 1)
      ∧ (u * pw < ox → (panelUvToImageUv (.fin u) (.fin v) m).1 = .fin 0)
      ∧ (ox + rw < u * pw → (panelUvToImageUv (.fin u) (.fin v) m).1 = .fin 1)
      ∧ (v * ph < oy → (panelUvToImageUv (.fin u) (.fin v) m).2 = .fin 0)
      ∧ (oy + rh < v * ph → (panelUvToImageUv (.fin u) (.fin v) m).2 = .fin 1) := by
  intro m hm
  subst hm
  have hrw' : rw ≠ 0 := ne_of_gt hrw
  have hrh' : rh ≠ 0 := ne_of_gt hrh
  have hval : panelUvToImageUv (.fin u) (.fin v)
      { srcW := .fin sw, srcH := .fin sh, panelW := .fin pw
        panelH := .fin ph, renderW := .fin rw, renderH := .fin rh
        offsetX := .fin ox, offsetY := .fin oy }
      = (.fin (max 0 (min 1 ((u * pw - ox) / rw))),
         .fin (max 0 (min 1 ((v * ph - oy) / rh)))) := by
    simp only [panelUvToImageUv, panelUvToCamUv, JsNum.mul, JsNum.sub,
      JsNum.div, jsClamp, JsNum.jmin, JsNum.jmax, if_neg hrw', if_neg hrh']
  refine ⟨⟨_, _, hval, le_max_left _ _, ?_, le_max_left _ _, ?_⟩, ?_, ?_, ?_, ?_⟩
  · exact max_le (by norm_num) (min_le_left _ _)
  · exact max_le (by norm_num) (min_le_left _ _)
  · intro hbar
    rw [hval]
    have hc : (u * pw - ox) / rw < 0 := div_neg_of_neg_of_pos (by linarith) hrw
    have : min 1 ((u * pw - ox) / rw) = (u * pw - ox) / rw :=
      min_eq_right (le_of_lt (lt_of_lt_of_le hc (by norm_num)))
    simp [this, max_eq_left (le_of_lt hc)]
  · intro hbar
    rw [hval]
    have hc : 1 < (u * pw - ox) / rw := (one_lt_div hrw).mpr (by linarith)
    have h1 : min 1 ((u * pw - ox) / rw) = 1 := min_eq_left (le_of_lt hc)
    simp [h1]
  · intro hbar
    rw [hval]
    have hc : (v * ph - oy) / rh < 0 := div_neg_of_neg_of_pos (by linarith) hrh
    have : min 1 ((v * ph - oy) / rh) = (v * ph - oy) / rh :=
      min_eq_right (le_of_lt (lt_of_lt_of_le hc (by norm_num)))
    simp [this, max_eq_left (le_of_lt hc)]
  · intro hbar
    rw [hval]
    have hc : 1 < (v * ph - oy) / rh := (one_lt_div hrh).mpr (by linarith)
    have h1 : min 1 ((v * ph - oy) / rh) = 1 := min_eq_left (le_of_lt hc)
    simp [h1]

/-- Witness for `c6_image_uv_clamped`: the spec's Scenario-A mapping
(1920×1080 into a 1280×1280 panel: render 1280×720, offset (0, 280)),
hover pixel in the top letterbox bar clamps `v` to `0`. -/
theorem c6_image_uv_clamped_witness :
    ∃ q1 q2 : ℚ,
      panelUvToImageUv (.fin (1/2)) (.fin (1/10))
        { srcW := .fin 1920, srcH := .fin 1080, panelW := .fin 1280
          panelH := .fin 1280, renderW := .fin 1280, renderH := .fin 720
          offsetX := .fin 0, offsetY := .fin 280 }
        = (.fin q1, .fin q2)
      ∧ 0 ≤ q1 ∧ q1 ≤ 1 ∧ 0 ≤ q2 ∧ q2 ≤ 1 :=
  ((c6_image_uv_clamped (1/2) (1/10) 1920 1080 1280 1280 1280 720 0 280
      (by norm_num) (by norm_num)) _ rfl).1


/-! ### Vector helper lemmas -/

theorem v3_dot_smul_left (v : V3) (s : ℝ) (w : V3) :
    (v.multiplyScalar s).dot w = s * v.dot w := by
  simp only [V3.multiplyScalar, V3.dot]
  ring

theorem v3_cross_dot_left (a b : V3) : (a.cross b).dot a = 0 := by
  simp only [V3.cross, V3.dot]
  ring

theorem v3_cross_dot_right (a b : V3) : (a.cross b).dot b = 0 := by
  simp only [V3.cross, V3.dot]
  ring

theorem v3_cross_smul_right (a b : V3) (s : ℝ) :
    a.cross (b.multiplyScalar s) = (a.cross b).multiplyScalar s := by
  simp only [V3.cross, V3.multiplyScalar, V3.mk.injEq]
  refine ⟨by ring, by ring, by ring⟩

theorem v3_cross_smul_left (a b : V3) (s : ℝ) :
    (a.multiplyScalar s).cross b = (a.cross b).multiplyScalar s := by
  simp only [V3.cross, V3.multiplyScalar, V3.mk.injEq]
  refine ⟨by ring, by ring, by ring⟩

theorem v3_normalize_dot_eq_zero (v w : V3) (h : v.dot w = 0) :
    v.normalize.dot w = 0 := by
  unfold V3.normalize
  rw [v3_dot_smul_left, h, mul_zero]

theorem v3_normalize_of_unit (v : V3) (h : v.normSq = 1) : v.normalize = v := by
  have hl : v.length = 1 := by rw [V3.length, h, Real.sqrt_one]
  unfold V3.normalize
  rw [hl, if_neg one_ne_zero]
  cases v
  simp [V3.multiplyScalar]

/-- C8 counterexample: for the ray from the origin along `(0,0,−1)`, the
fallback-placed marker basis is `X = (−1,0,0)`, `Y = (0,0,−1)`,
`Z = (0,1,0)`.  The direction opposing the ray is `(0,0,1)`: neither the
ring geometry's flat-face normal (local +Z → `(0,1,0)`) nor the pose-path
surface-normal convention (local +Y → `(0,0,−1)`, which is `+dir`) equals
it, so the marker's visible face normal does not oppose the ray
direction. -/
theorem c8_face_normal_counterexample :
    placeReticleFallback ⟨0, 0, 0⟩ ⟨0, 0, -1⟩ =
      { pos := ⟨0, 0, -2⟩, xAxis := ⟨-1, 0, 0⟩
        yAxis := ⟨0, 0, -1⟩, zAxis := ⟨0, 1, 0⟩ }
    ∧ (⟨0, 1, 0⟩ : V3) ≠ ⟨0, 0, 1⟩
    ∧ (⟨0, 0, -1⟩ : V3) ≠ ⟨0, 0, 1⟩ := by
  have hdir : V3.normalize ⟨0, 0, -1⟩ = ⟨0, 0, -1⟩ :=
    v3_normalize_of_unit _ (by norm_num [V3.normSq])
  have htan : V3.normalize ⟨-1, 0, 0⟩ = ⟨-1, 0, 0⟩ :=
    v3_normalize_of_unit _ (by norm_num [V3.normSq])
  have hbit : V3.normalize ⟨0, 1, 0⟩ = ⟨0, 1, 0⟩ :=
    v3_normalize_of_unit _ (by norm_num [V3.normSq])
  refine ⟨?_, ?_, ?_⟩
  · unfold placeReticleFallback
    rw [hdir]
    norm_num [V3.cross, V3.add, V3.multiplyScalar, FALLBACK_DISTANCE, htan, hbit,
      ReticleBasis.mk.injEq, V3.mk.injEq]
  · simp only [ne_eq, V3.mk.injEq]
    norm_num
  · simp only [ne_eq, V3.mk.injEq]
    norm_num

/-- C8 (amended): fallback placement puts the marker at
`origin + dir * FALLBACK_DISTANCE` and builds a basis whose tangent
(local X) and bitangent (local Z) axes are orthogonal to the ray, but
whose local +Y axis equals the normalized ray direction itself — the
marker's face normal points along/perpendicular to the ray, not opposing
it. -/
theorem c8_fallback_placement (origin dir : V3) :
    (placeReticleFallback origin dir).pos
        = origin.add (dir.multiplyScalar FALLBACK_DISTANCE)
    ∧ (placeReticleFallback origin dir).yAxis = dir.normalize
    ∧ ((placeReticleFallback origin dir).xAxis).dot dir = 0
    ∧ ((placeReticleFallback origin dir).zAxis).dot dir = 0 := by
  unfold placeReticleFallback
  refine ⟨rfl, rfl, ?_, ?_⟩
  · apply v3_normalize_dot_eq_zero
    show (V3.cross _ (V3.normalize dir)).dot dir = 0
    unfold V3.normalize
    rw [v3_cross_smul_right, v3_dot_smul_left, v3_cross_dot_right, mul_zero]
  · apply v3_normalize_dot_eq_zero
    show ((V3.normalize dir).cross _).dot dir = 0
    unfold V3.normalize
    rw [v3_cross_smul_left, v3_dot_smul_left, v3_cross_dot_left, mul_zero]

/-! ### Orchestrator state-machine lemmas -/

theorem probing_tick_fire (k : ℕ) (ray : RayRef) (t0 : ℝ) (e : OrchEnv)
    (hf : e.frameAndSpaces = true) (hr : e.hitResults = [])
    (ht : HIT_TIMEOUT < t0 + e.dt) :
    tapHitUpdate ⟨some k, some ray, t0⟩ e
      = (⟨none, none, 0⟩,
         { requested := false, cancelled := true
           reticle := some (.fallback (placeReticleFallback ray.origin ray.dir))
           tapStateAfter := e.tapState }) := by
  unfold tapHitUpdate probingTick
  rw [hf, hr]
  simp [ht]

theorem probing_tick_wait (k : ℕ) (ray : RayRef) (t0 : ℝ) (e : OrchEnv)
    (hf : e.frameAndSpaces = true) (hr : e.hitResults = [])
    (ht : ¬ HIT_TIMEOUT < t0 + e.dt) :
    tapHitUpdate ⟨some k, some ray, t0⟩ e
      = (⟨some k, some ray, t0 + e.dt⟩, unchangedOut e) := by
  unfold tapHitUpdate probingTick
  rw [hf, hr]
  simp [ht]

theorem idle_tick_quiet (t : ℝ) (e : OrchEnv)
    (hf : e.frameAndSpaces = true)
    (hts : ∀ ts, e.tapState = some ts → ts.pendingRayUv = none) :
    tapHitUpdate ⟨none, none, t⟩ e = (⟨none, none, t⟩, unchangedOut e) := by
  unfold tapHitUpdate idleTick
  rw [hf]
  cases h : e.tapState with
  | none => simp
  | some ts =>
      have := hts ts h
      simp [this]

theorem tapHitRun_idle_quiet (envs : List OrchEnv)
    (hq : ∀ e ∈ envs, QuietEnv e) (t : ℝ) :
    tapHitRun ⟨none, none, t⟩ envs
      = (⟨none, none, t⟩, envs.map unchangedOut) := by
  induction envs with
  | nil => rfl
  | cons e rest ih =>
      obtain ⟨hf, _, _, hts⟩ := hq e (List.mem_cons_self e rest)
      have hstep := idle_tick_quiet t e hf hts
      simp only [tapHitRun, hstep, List.map_cons]
      rw [ih fun x hx => hq x (List.mem_cons_of_mem e hx)]
/-- C3: at most one surface probe is active at any time — on any tick in
which `activeHitSource` is non-null, `update` never invokes
`requestHitTestSource` (the request site is structurally unreachable from
the Probing branch), so a new probe can only be issued on a tick that
starts with the previous probe resolved, cancelled and cleared. -/
theorem c3_single_probe_invariant (s : OrchState) (env : OrchEnv) (k : ℕ)
    (h : s.activeHitSource = some k) :
    ((tapHitUpdate s env).2).requested = false := by
  unfold tapHitUpdate
  rw [h]
  by_cases hf : env.frameAndSpaces = false
  · rw [if_pos hf]
    rfl
  · rw [if_neg hf]
    unfold probingTick
    cases hr : env.hitResults with
    | nil =>
        cases hp : s.pendingRayRef with
        | none => rfl
        | some ray =>
            by_cases ht : HIT_TIMEOUT < s.timeSinceTap + env.dt
            · simp [ht]
            · simp [ht, unchangedOut]
    | cons r0 rest => rfl

/-- Witness for `c3_single_probe_invariant`: a concrete Probing state and
a tick environment whose request channel would succeed — still no request
is issued. -/
theorem c3_single_probe_invariant_witness :
    ((tapHitUpdate ⟨some 0, none, 0⟩ probeEnvC).2).requested = false :=
  c3_single_probe_invariant ⟨some 0, none, 0⟩ probeEnvC 0 rfl

theorem c4_run_aux (envs : List OrchEnv) (hq : ∀ e ∈ envs, QuietEnv e) :
    ∀ (t0 : ℝ) (k : ℕ) (ray : RayRef),
      t0 ≤ HIT_TIMEOUT →
      HIT_TIMEOUT < t0 + (envs.map OrchEnv.dt).sum →
      ((tapHitRun ⟨some k, some ray, t0⟩ envs).2).countP OrchOut.isFallback = 1
      ∧ (∀ o ∈ (tapHitRun ⟨some k, some ray, t0⟩ envs).2, o.isFallback = true →
          o.reticle = some (.fallback (placeReticleFallback ray.origin ray.dir)))
      ∧ (tapHitRun ⟨some k, some ray, t0⟩ envs).1 = ⟨none, none, 0⟩ := by
  induction envs with
  | nil =>
      intro t0 k ray hle htot
      exact absurd htot (by simp; linarith)
  | cons e rest ih =>
      intro t0 k ray hle htot
      obtain ⟨hf, hr, hd, _⟩ := hq e (List.mem_cons_self e rest)
      have hqrest : ∀ x ∈ rest, QuietEnv x :=
        fun x hx => hq x (List.mem_cons_of_mem e hx)
      by_cases ht : HIT_TIMEOUT < t0 + e.dt
      · have hstep := probing_tick_fire k ray t0 e hf hr ht
        have hrest := tapHitRun_idle_quiet rest hqrest 0
        simp only [tapHitRun, hstep, hrest]
        refine ⟨?_, ?_, trivial⟩
        · rw [List.countP_cons]
          have h0 : (rest.map unchangedOut).countP OrchOut.isFallback = 0 := by
            rw [List.countP_eq_zero]
            intro o ho
            obtain ⟨x, _, hx⟩ := List.mem_map.mp ho
            subst hx
            simp [OrchOut.isFallback, unchangedOut]
          rw [h0]
          rfl
        · intro o ho hfb
          rcases List.mem_cons.mp ho with rfl | hmem
          · rfl
          · obtain ⟨x, _, hx⟩ := List.mem_map.mp hmem
            subst hx
            exact absurd hfb (by simp [OrchOut.isFallback, unchangedOut])
      · have hstep := probing_tick_wait k ray t0 e hf hr ht
        have htot' : HIT_TIMEOUT < (t0 + e.dt) + (rest.map OrchEnv.dt).sum := by
          simp only [List.map_cons, List.sum_cons] at htot
          linarith
        have hle' : t0 + e.dt ≤ HIT_TIMEOUT := le_of_not_lt ht
        have hrec := ih hqrest (t0 + e.dt) k ray hle' htot'
        simp only [tapHitRun, hstep]
        refine ⟨?_, ?_, hrec.2.2⟩
        · rw [List.countP_cons, hrec.1]
          rfl
        · intro o ho hfb
          rcases List.mem_cons.mp ho with rfl | hmem
          · exact absurd hfb (by simp [OrchOut.isFallback, unchangedOut])
          · exact hrec.2.1 o hmem hfb

/-- C4: a probe that never receives a result resolves to fallback exactly
once.  Starting from Probing with a recorded ray and zero elapsed time,
over any sequence of quiet ticks (no results, no new hover) whose total
time exceeds `HIT_TIMEOUT = 0.4`: exactly one tick resolves via fallback,
that fallback places the marker at `origin + dir * FALLBACK_DISTANCE`,
and the machine ends Idle (source cancelled and cleared, ray cleared,
elapsed reset) — no double resolution, no stuck Probing state. -/
theorem c4_timeout_fallback_exactly_once (envs : List OrchEnv) (k : ℕ)
    (ray : RayRef) (hq : ∀ e ∈ envs, QuietEnv e)
    (htot : HIT_TIMEOUT < (envs.map OrchEnv.dt).sum) :
    ((tapHitRun ⟨some k, some ray, 0⟩ envs).2).countP OrchOut.isFallback = 1
    ∧ (∀ o ∈ (tapHitRun ⟨some k, some ray, 0⟩ envs).2, o.isFallback = true →
        o.reticle = some (.fallback (placeReticleFallback ray.origin ray.dir)))
    ∧ (placeReticleFallback ray.origin ray.dir).pos
        = ray.origin.add (ray.dir.multiplyScalar FALLBACK_DISTANCE)
    ∧ (tapHitRun ⟨some k, some ray, 0⟩ envs).1 = ⟨none, none, 0⟩ := by
  have h := c4_run_aux envs hq 0 k ray (by norm_num [HIT_TIMEOUT])
    (by simpa using htot)
  exact ⟨h.1, h.2.1, rfl, h.2.2⟩

/-- Witness for `c4_timeout_fallback_exactly_once`: two quiet ticks of
0.25 s and 0.2 s; the second crosses the 0.4 s timeout. -/
theorem c4_timeout_fallback_exactly_once_witness :
    ((tapHitRun ⟨some 0, some ⟨⟨0, 0, 0⟩, ⟨0, 0, -1⟩⟩, 0⟩
        [quietEnvC (1/4), quietEnvC (1/5)]).2).countP OrchOut.isFallback = 1
    ∧ (tapHitRun ⟨some 0, some ⟨⟨0, 0, 0⟩, ⟨0, 0, -1⟩⟩, 0⟩
        [quietEnvC (1/4), quietEnvC (1/5)]).1 = ⟨none, none, 0⟩ := by
  have h := c4_timeout_fallback_exactly_once [quietEnvC (1/4), quietEnvC (1/5)]
    0 ⟨⟨0, 0, 0⟩, ⟨0, 0, -1⟩⟩
    (by
      intro e he
      simp only [List.mem_cons, List.not_mem_nil, or_false] at he
      rcases he with rfl | rfl <;>
        exact ⟨rfl, rfl, by norm_num [quietEnvC], by intro ts h; simp [quietEnvC] at h⟩)
    (by norm_num [quietEnvC, HIT_TIMEOUT])
  exact ⟨h.1, h.2.2.2⟩

/-- C5 counterexample: in Idle with a pending hover sample but no
published mapping, the orchestrator consumes the sample and returns with
no marker placement at all — the reticle command is `none` and the state
is unchanged — contradicting the claim that both reconstruction-failure
causes resolve via fallback placement. -/
theorem c5_no_mapping_drops_sample_counterexample :
    (tapHitUpdate ⟨none, none, 0⟩ envNoMapping).2.reticle = none
    ∧ (tapHitUpdate ⟨none, none, 0⟩ envNoMapping).2.tapStateAfter
        = some ⟨none, none⟩
    ∧ (tapHitUpdate ⟨none, none, 0⟩ envNoMapping).1 = ⟨none, none, 0⟩ :=
  ⟨rfl, rfl, rfl⟩

/-- C5 (amended): in Idle, whenever a `pendingRayUv` exists it is consumed
(set to null); but the two reconstruction-failure causes differ: when no
mapping has been published the sample is dropped silently — no marker
placement, state unchanged, still Idle — while when a mapping exists but
no viewer pose is available this tick the orchestrator resolves
immediately via fallback placement along the camera-unproject ray and
remains Idle with the recorded ray cleared. -/
theorem c5_idle_failure_paths (s : OrchState) (env : OrchEnv)
    (ts : TapHitState) (uv : Uv)
    (hidle : s.activeHitSource = none)
    (hframe : env.frameAndSpaces = true)
    (hts : env.tapState = some ts)
    (huv : ts.pendingRayUv = some uv) :
    (env.mapping = none →
      (tapHitUpdate s env).2.tapStateAfter = some { ts with pendingRayUv := none }
      ∧ (tapHitUpdate s env).2.reticle = none
      ∧ (tapHitUpdate s env).1 = s)
    ∧ (∀ m : MappingR, env.mapping = some m → env.viewerPose = none →
      (tapHitUpdate s env).2.tapStateAfter = some { ts with pendingRayUv := none }
      ∧ (tapHitUpdate s env).2.reticle
          = some (.fallback (placeReticleFallback
              (ndcFallbackRay env.camera
                (clampR ((uv.u * m.panelW - m.offsetX) / m.renderW) 0 1)
                (clampR ((uv.v * m.panelH - m.offsetY) / m.renderH) 0 1)).1
              (ndcFallbackRay env.camera
                (clampR ((uv.u * m.panelW - m.offsetX) / m.renderW) 0 1)
                (clampR ((uv.v * m.panelH - m.offsetY) / m.renderH) 0 1)).2))
      ∧ (tapHitUpdate s env).1 = { s with pendingRayRef := none }) := by
  constructor
  · intro hm
    simp [tapHitUpdate, idleTick, hidle, hframe, hts, huv, hm]
  · intro m hm hvp
    simp [tapHitUpdate, idleTick, hidle, hframe, hts, huv, hm, hvp]

/-- Witness for `c5_idle_failure_paths`: concrete Idle state, pending
hover `(1/2, 1/2)`, a well-formed mapping but no viewer pose — the sample
is consumed and the machine stays Idle. -/
theorem c5_idle_failure_paths_witness :
    (tapHitUpdate ⟨none, none, 0⟩ envNoViewerPose).2.tapStateAfter
        = some ⟨none, none⟩
    ∧ (tapHitUpdate ⟨none, none, 0⟩ envNoViewerPose).1 = ⟨none, none, 0⟩ := by
  have h := (c5_idle_failure_paths ⟨none, none, 0⟩ envNoViewerPose
      ⟨none, some ⟨1/2, 1/2⟩⟩ ⟨1/2, 1/2⟩ rfl rfl rfl rfl).2
      ⟨1920, 1080, 1280, 1080, 1280, 1080, 0, 0⟩ rfl rfl
  exact ⟨h.1, h.2.2⟩

/-! ### Controller-system lemmas -/

theorem processInputSource_pose_none (f : V3 → V3 → Option PanelHit)
    (acc : Option Uv × Option V3 × TapHitState × List (ℕ × Bool))
    (src : InputSourceCP) (hp : src.pose = none) :
    processInputSource f acc src = acc := by
  unfold processInputSource
  split_ifs <;> simp [hp]

theorem processInputSource_not_right (f : V3 → V3 → Option PanelHit)
    (acc : Option Uv × Option V3 × TapHitState × List (ℕ × Bool))
    (src : InputSourceCP) (hdom : HandednessWF src)
    (hnr : src.handedness ≠ "right") :
    processInputSource f acc src = acc := by
  unfold processInputSource
  by_cases h1 : src.targetRayMode ≠ .trackedPointer
  · rw [if_pos h1]
  · rw [if_neg h1]
    have h2 : src.handedness ≠ "" ∧ src.handedness ≠ "right" := by
      refine ⟨?_, hnr⟩
      rcases hdom with h | h | h
      · rw [h]
        decide
      · rw [h]
        decide
      · exact absurd h hnr
    rw [if_pos h2]

theorem foldl_sources_pose_none (f : V3 → V3 → Option PanelHit)
    (l : List InputSourceCP) (hall : ∀ s ∈ l, s.pose = none) :
    ∀ acc, l.foldl (processInputSource f) acc = acc := by
  induction l with
  | nil => intro acc; rfl
  | cons s rest ih =>
      intro acc
      rw [List.foldl_cons,
        processInputSource_pose_none f acc s (hall s (List.mem_cons_self s rest))]
      exact ih (fun x hx => hall x (List.mem_cons_of_mem s hx)) acc

theorem foldl_sources_filter_right (f : V3 → V3 → Option PanelHit)
    (l : List InputSourceCP) (hdom : ∀ s ∈ l, HandednessWF s) :
    ∀ acc, l.foldl (processInputSource f) acc
      = (l.filter fun s => s.handedness == "right").foldl
          (processInputSource f) acc := by
  induction l with
  | nil => intro acc; rfl
  | cons s rest ih =>
      intro acc
      have hdrest : ∀ x ∈ rest, HandednessWF x :=
        fun x hx => hdom x (List.mem_cons_of_mem s hx)
      by_cases hr : s.handedness = "right"
      · have hb : (s.handedness == "right") = true := by simp [hr]
        simp only [List.foldl_cons, List.filter_cons, hb, if_pos]
        exact ih hdrest _
      · have hb : (s.handedness == "right") = false := by simp [hr]
        simp only [List.foldl_cons, List.filter_cons, hb, Bool.false_eq_true,
          if_false]
        rw [processInputSource_not_right f acc s
          (hdom s (List.mem_cons_self s rest)) hr]
        exact ih hdrest acc

/-- C9 counterexample: with a right tracked-pointer source whose pose is
missing this tick (tracking lost), the update does NOT skip the tick
entirely: the previously published hover value (`(1/4, 1/4)` here) is
overwritten with `null` at the end of the tick.  Only the pending sample
survives. -/
theorem c9_hover_cleared_counterexample :
    gHover.panelHoverUv = some ⟨1/4, 1/4⟩
    ∧ (controllerTapUpdate (fun _ _ => none) true true [lostSource]
        gHover).panelHoverUv = none
    ∧ (controllerTapUpdate (fun _ _ => none) true true [lostSource]
        gHover).tapState = some ⟨none, some ⟨1/4, 1/4⟩⟩ :=
  ⟨rfl, rfl, rfl⟩

/-- C9 (amended): when every input source reports no pose this tick
(tracking lost), the per-source processing is skipped — the pending sample
is not overwritten, `lastTapUv` is untouched, `pendingPanelHitPointRef`
and `prevPressed` are untouched — but the hover slot is still rewritten
unconditionally at the end of the tick, so the published hover becomes
`null` rather than retaining its last known value. -/
theorem c9_tracking_lost_keeps_pending_clears_hover
    (f : V3 → V3 → Option PanelHit) (sources : List InputSourceCP)
    (hall : ∀ s ∈ sources, s.pose = none)
    (g : ControllerGlobals) (ts : TapHitState) (hts : g.tapState = some ts) :
    controllerTapUpdate f true true sources g
      = { panelHoverUv := none, tapState := some ts
          pendingPanelHitPointRef := g.pendingPanelHitPointRef
          prevPressed := g.prevPressed } := by
  have hfold := foldl_sources_pose_none f sources hall
    (none, none, ts, g.prevPressed)
  unfold controllerTapUpdate
  simp [hts, hfold]

/-- Witness for `c9_tracking_lost_keeps_pending_clears_hover` at the
concrete lost-tracking source and globals. -/
theorem c9_tracking_lost_keeps_pending_clears_hover_witness :
    controllerTapUpdate (fun _ _ => none) true true [lostSource] gHover
      = { panelHoverUv := none, tapState := some ⟨none, some ⟨1/4, 1/4⟩⟩
          pendingPanelHitPointRef := none, prevPressed := [] } :=
  c9_tracking_lost_keeps_pending_clears_hover (fun _ _ => none) [lostSource]
    (by
      intro s hs
      simp only [List.mem_cons, List.not_mem_nil, or_false] at hs
      subst hs
      rfl)
    gHover ⟨none, some ⟨1/4, 1/4⟩⟩ rfl

/-- C10: hover and pending-sample state depend only on the right-hand
input sources.  For well-formed WebXR handedness values
(`"none" | "left" | "right"`), two input-source lists with the same
right-handed sub-list produce identical results — the full globals record,
hence in particular identical `panelHoverUv` and `pendingRayUv`; sources
of other handedness (including `"none"`) are skipped before touching any
state. -/
theorem c10_right_hand_noninterference (f : V3 → V3 → Option PanelHit)
    (sfr panel : Bool) (l1 l2 : List InputSourceCP) (g : ControllerGlobals)
    (h1 : ∀ s ∈ l1, HandednessWF s) (h2 : ∀ s ∈ l2, HandednessWF s)
    (hfilter : (l1.filter fun s => s.handedness == "right")
             = (l2.filter fun s => s.handedness == "right")) :
    controllerTapUpdate f sfr panel l1 g = controllerTapUpdate f sfr panel l2 g := by
  unfold controllerTapUpdate
  cases hts : g.tapState with
  | none => rfl
  | some ts =>
      dsimp only
      by_cases hs : sfr = false
      · rw [if_pos hs, if_pos hs]
      · rw [if_neg hs, if_neg hs]
        by_cases hp : panel = false
        · rw [if_pos hp, if_pos hp]
        · rw [if_neg hp, if_neg hp]
          have e1 := foldl_sources_filter_right f l1 h1
            (none, none, ts, g.prevPressed)
          have e2 := foldl_sources_filter_right f l2 h2
            (none, none, ts, g.prevPressed)
          simp only [e1, e2, hfilter]

/-- Witness for `c10_right_hand_noninterference`: the source lists
`[left, right]` and `[right, none-handed]` share the right-hand sub-list
`[right]`, so the tick results coincide. -/
theorem c10_right_hand_noninterference_witness :
    controllerTapUpdate (fun _ _ => none) true true [leftSrcC, rightSrcC] gHover
      = controllerTapUpdate (fun _ _ => none) true true [rightSrcC, noneSrcC]
          gHover :=
  c10_right_hand_noninterference (fun _ _ => none) true true
    [leftSrcC, rightSrcC] [rightSrcC, noneSrcC] gHover
    (by
      intro s hs
      simp only [List.mem_cons, List.not_mem_nil, or_false] at hs
      rcases hs with rfl | rfl
      · exact Or.inr (Or.inl rfl)
      · exact Or.inr (Or.inr rfl))
    (by
      intro s hs
      simp only [List.mem_cons, List.not_mem_nil, or_false] at hs
      rcases hs with rfl | rfl
      · exact Or.inr (Or.inr rfl)
      · exact Or.inl rfl)
    rfl

/-! ### Unit-quaternion extraction: `Matrix4.decompose` on rigid transforms -/

theorem v3_normSq_nonneg (v : V3) : 0 ≤ v.normSq := by
  dsimp [V3.normSq]
  nlinarith [mul_self_nonneg v.x, mul_self_nonneg v.y, mul_self_nonneg v.z]

theorem v3_length_eq_one (v : V3) (h : v.normSq = 1) : v.length = 1 := by
  rw [V3.length, h, Real.sqrt_one]

theorem v3_normSq_smul (v : V3) (s : ℝ) :
    (v.multiplyScalar s).normSq = s ^ 2 * v.normSq := by
  dsimp [V3.multiplyScalar, V3.normSq]
  ring

theorem v3_normSq_normalize (v : V3) (h : v.length ≠ 0) :
    v.normalize.normSq = 1 := by
  have h0 : 0 ≤ v.normSq := v3_normSq_nonneg v
  have hsq : v.length ^ 2 = v.normSq := Real.sq_sqrt h0
  unfold V3.normalize
  rw [if_neg h, v3_normSq_smul]
  rw [← hsq]
  field_simp

theorem v3_length_normalize (v : V3) (h : v.length ≠ 0) :
    v.normalize.length = 1 :=
  v3_length_eq_one _ (v3_normSq_normalize v h)

theorem v3_normSq_applyQuaternion (v : V3) (q : QuatT)
    (hq : quatNormSq q = 1) :
    (v.applyQuaternion q).normSq = v.normSq := by
  obtain ⟨qx, qy, qz, qw⟩ := q
  have hq' : qx * qx + qy * qy + qz * qz + qw * qw = 1 := hq
  dsimp [V3.applyQuaternion, V3.normSq]
  linear_combination (4 * (qx ^ 2 + qy ^ 2 + qz ^ 2)
      * (v.x ^ 2 + v.y ^ 2 + v.z ^ 2)
    - 4 * (qx * v.x + qy * v.y + qz * v.z) ^ 2) * hq'

theorem v3_sub_length_ne_zero (a b : V3) (h : a ≠ b) :
    (a.sub b).length ≠ 0 := by
  intro hl
  apply h
  rw [V3.length] at hl
  have h0 : 0 ≤ (a.sub b).normSq := v3_normSq_nonneg _
  have hz : (a.sub b).normSq = 0 :=
    le_antisymm (Real.sqrt_eq_zero'.mp hl) h0
  obtain ⟨a1, a2, a3⟩ := a
  obtain ⟨b1, b2, b3⟩ := b
  dsimp [V3.sub, V3.normSq] at hz
  have k1 : a1 - b1 = 0 := by
    have hle : (a1 - b1) * (a1 - b1) ≤ 0 := by
      nlinarith [mul_self_nonneg (a2 - b2), mul_self_nonneg (a3 - b3)]
    exact mul_self_eq_zero.mp (le_antisymm hle (mul_self_nonneg _))
  have k2 : a2 - b2 = 0 := by
    have hle : (a2 - b2) * (a2 - b2) ≤ 0 := by
      nlinarith [mul_self_nonneg (a1 - b1), mul_self_nonneg (a3 - b3)]
    exact mul_self_eq_zero.mp (le_antisymm hle (mul_self_nonneg _))
  have k3 : a3 - b3 = 0 := by
    have hle : (a3 - b3) * (a3 - b3) ≤ 0 := by
      nlinarith [mul_self_nonneg (a1 - b1), mul_self_nonneg (a2 - b2)]
    exact mul_self_eq_zero.mp (le_antisymm hle (mul_self_nonneg _))
  simp only [V3.mk.injEq]
  refine ⟨by linarith, by linarith, by linarith⟩

theorem v3_length_z1_ne_zero (a b : ℝ) : (V3.length ⟨a, b, 1⟩) ≠ 0 := by
  rw [V3.length]
  apply ne_of_gt
  apply Real.sqrt_pos.mpr
  dsimp [V3.normSq]
  nlinarith [mul_self_nonneg a, mul_self_nonneg b]

theorem normalize_applyQ_unit (v : V3) (q : QuatT) (hq : quatNormSq q = 1)
    (hv : v.length ≠ 0) :
    ((v.normalize).applyQuaternion q).normalize.length = 1 := by
  have h1 : (v.normalize).normSq = 1 := v3_normSq_normalize v hv
  have h2 : ((v.normalize).applyQuaternion q).normSq = 1 := by
    rw [v3_normSq_applyQuaternion _ _ hq, h1]
  apply v3_length_normalize
  rw [v3_length_eq_one _ h2]
  norm_num

theorem shepperd_unit (m : M4) (qx qy qz qw : ℝ)
    (hq : qx * qx + qy * qy + qz * qz + qw * qw = 1)
    (h11 : m.e0 = 1 - 2 * qy ^ 2 - 2 * qz ^ 2)
    (h21 : m.e1 = 2 * qx * qy + 2 * qw * qz)
    (h31 : m.e2 = 2 * qx * qz - 2 * qw * qy)
    (h12 : m.e4 = 2 * qx * qy - 2 * qw * qz)
    (h22 : m.e5 = 1 - 2 * qx ^ 2 - 2 * qz ^ 2)
    (h32 : m.e6 = 2 * qy * qz + 2 * qw * qx)
    (h13 : m.e8 = 2 * qx * qz + 2 * qw * qy)
    (h23 : m.e9 = 2 * qy * qz - 2 * qw * qx)
    (h33 : m.e10 = 1 - 2 * qx ^ 2 - 2 * qy ^ 2) :
    quatNormSq (quatFromRotationM4 m) = 1 := by
  unfold quatFromRotationM4
  dsimp only
  split_ifs with hc1 hc2 hc3
  · -- trace > 0
    have hT4 : m.e0 + m.e5 + m.e10 + 1 = 4 * qw ^ 2 := by
      linear_combination h11 + h22 + h33 + (-4) * hq
    have hpos : (0 : ℝ) < m.e0 + m.e5 + m.e10 + 1 := by linarith
    have hS2 : Real.sqrt (m.e0 + m.e5 + m.e10 + 1) ^ 2 = m.e0 + m.e5 + m.e10 + 1 :=
      Real.sq_sqrt (le_of_lt hpos)
    have hS0 : Real.sqrt (m.e0 + m.e5 + m.e10 + 1) ≠ 0 :=
      ne_of_gt (Real.sqrt_pos.mpr hpos)
    dsimp [quatNormSq]
    field_simp
    linear_combination ((m.e6 - m.e9 + 4*qw*qx)/16) * (h32 - h23)
      + ((m.e8 - m.e2 + 4*qw*qy)/16) * (h13 - h31)
      + ((m.e1 - m.e4 + 4*qw*qz)/16) * (h21 - h12)
      + (qw^2) * hq
      + ((m.e0 + m.e5 + m.e10 + 1 + 4*qw^2 - 4)/16) * hT4
      + ((m.e0 + m.e5 + m.e10 + 1)/16) * hS2
  · have hT4 : 1 + m.e0 - m.e5 - m.e10 = 4 * qx ^ 2 := by
      linear_combination h11 - h22 - h33
    have hx2 : 0 < qx ^ 2 := by nlinarith [hc2.1, sq_nonneg qy]
    have hpos : (0 : ℝ) < 1 + m.e0 - m.e5 - m.e10 := by linarith
    have hS2 : Real.sqrt (1 + m.e0 - m.e5 - m.e10) ^ 2 = 1 + m.e0 - m.e5 - m.e10 :=
      Real.sq_sqrt (le_of_lt hpos)
    have hS0 : Real.sqrt (1 + m.e0 - m.e5 - m.e10) ≠ 0 :=
      ne_of_gt (Real.sqrt_pos.mpr hpos)
    dsimp [quatNormSq]
    field_simp
    linear_combination
      (Real.sqrt (1 + m.e0 - m.e5 - m.e10) ^ 2 + (1 + m.e0 - m.e5 - m.e10) - 4) * hS2
      + ((1 + m.e0 - m.e5 - m.e10) + 4 * qx ^ 2 - 4) * hT4
      + (m.e4 + m.e1 + 4 * qx * qy) * (h12 + h21)
      + (m.e8 + m.e2 + 4 * qx * qz) * (h13 + h31)
      + (m.e6 - m.e9 + 4 * qw * qx) * (h32 - h23)
      + (16 * qx ^ 2) * hq
  · have hT4 : 1 + m.e5 - m.e0 - m.e10 = 4 * qy ^ 2 := by
      linear_combination h22 - h11 - h33
    have hy2 : 0 < qy ^ 2 := by nlinarith [hc3, sq_nonneg qz]
    have hpos : (0 : ℝ) < 1 + m.e5 - m.e0 - m.e10 := by linarith
    have hS2 : Real.sqrt (1 + m.e5 - m.e0 - m.e10) ^ 2 = 1 + m.e5 - m.e0 - m.e10 :=
      Real.sq_sqrt (le_of_lt hpos)
    have hS0 : Real.sqrt (1 + m.e5 - m.e0 - m.e10) ≠ 0 :=
      ne_of_gt (Real.sqrt_pos.mpr hpos)
    dsimp [quatNormSq]
    field_simp
    linear_combination
      (Real.sqrt (1 + m.e5 - m.e0 - m.e10) ^ 2 + (1 + m.e5 - m.e0 - m.e10) - 4) * hS2
      + ((1 + m.e5 - m.e0 - m.e10) + 4 * qy ^ 2 - 4) * hT4
      + (m.e4 + m.e1 + 4 * qx * qy) * (h12 + h21)
      + (m.e9 + m.e6 + 4 * qy * qz) * (h23 + h32)
      + (m.e8 - m.e2 + 4 * qw * qy) * (h13 - h31)
      + (16 * qy ^ 2) * hq
  · have hT4 : 1 + m.e10 - m.e0 - m.e5 = 4 * qz ^ 2 := by
      linear_combination h33 - h11 - h22
    have hz2 : 0 < qz ^ 2 := by
      have htr : m.e0 + m.e5 + m.e10 = 3 - 4 * (qx ^ 2 + qy ^ 2 + qz ^ 2) := by
        linear_combination h11 + h22 + h33
      have hsum : 3 / 4 ≤ qx ^ 2 + qy ^ 2 + qz ^ 2 := by
        have := not_lt.mp hc1
        linarith
      have hyz : qy ^ 2 ≤ qz ^ 2 := by
        have h' : m.e5 - m.e10 = 2 * qy ^ 2 - 2 * qz ^ 2 := by
          linear_combination h22 - h33
        have := not_lt.mp hc3
        linarith
      rcases not_and_or.mp hc2 with h2a | h2b
      · have hxy : qx ^ 2 ≤ qy ^ 2 := by
          have h' : m.e0 - m.e5 = 2 * qx ^ 2 - 2 * qy ^ 2 := by
            linear_combination h11 - h22
          have := not_lt.mp h2a
          linarith
        linarith
      · have hxz : qx ^ 2 ≤ qz ^ 2 := by
          have h' : m.e0 - m.e10 = 2 * qx ^ 2 - 2 * qz ^ 2 := by
            linear_combination h11 - h33
          have := not_lt.mp h2b
          linarith
        linarith
    have hpos : (0 : ℝ) < 1 + m.e10 - m.e0 - m.e5 := by linarith
    have hS2 : Real.sqrt (1 + m.e10 - m.e0 - m.e5) ^ 2 = 1 + m.e10 - m.e0 - m.e5 :=
      Real.sq_sqrt (le_of_lt hpos)
    have hS0 : Real.sqrt (1 + m.e10 - m.e0 - m.e5) ≠ 0 :=
      ne_of_gt (Real.sqrt_pos.mpr hpos)
    dsimp [quatNormSq]
    field_simp
    linear_combination
      (Real.sqrt (1 + m.e10 - m.e0 - m.e5) ^ 2 + (1 + m.e10 - m.e0 - m.e5) - 4) * hS2
      + ((1 + m.e10 - m.e0 - m.e5) + 4 * qz ^ 2 - 4) * hT4
      + (m.e8 + m.e2 + 4 * qx * qz) * (h13 + h31)
      + (m.e9 + m.e6 + 4 * qy * qz) * (h23 + h32)
      + (m.e1 - m.e4 + 4 * qw * qz) * (h21 - h12)
      + (16 * qz ^ 2) * hq

theorem decompose_quat_unit (t : V3) (q : QuatT) (hq : quatNormSq q = 1) :
    quatNormSq ((composeTQ t q).decompose).quaternion = 1 := by
  obtain ⟨qx, qy, qz, qw⟩ := q
  have hq' : qx * qx + qy * qy + qz * qz + qw * qw = 1 := hq
  have hcol1 : V3.normSq ⟨(composeTQ t ⟨qx, qy, qz, qw⟩).e0,
      (composeTQ t ⟨qx, qy, qz, qw⟩).e1, (composeTQ t ⟨qx, qy, qz, qw⟩).e2⟩ = 1 := by
    dsimp [composeTQ, V3.normSq]
    linear_combination (4 * (qy ^ 2 + qz ^ 2)) * hq'
  have hcol2 : V3.normSq ⟨(composeTQ t ⟨qx, qy, qz, qw⟩).e4,
      (composeTQ t ⟨qx, qy, qz, qw⟩).e5, (composeTQ t ⟨qx, qy, qz, qw⟩).e6⟩ = 1 := by
    dsimp [composeTQ, V3.normSq]
    linear_combination (4 * (qx ^ 2 + qz ^ 2)) * hq'
  have hcol3 : V3.normSq ⟨(composeTQ t ⟨qx, qy, qz, qw⟩).e8,
      (composeTQ t ⟨qx, qy, qz, qw⟩).e9, (composeTQ t ⟨qx, qy, qz, qw⟩).e10⟩ = 1 := by
    dsimp [composeTQ, V3.normSq]
    linear_combination (4 * (qx ^ 2 + qy ^ 2)) * hq'
  have hlen1 : V3.length ⟨(composeTQ t ⟨qx, qy, qz, qw⟩).e0,
      (composeTQ t ⟨qx, qy, qz, qw⟩).e1, (composeTQ t ⟨qx, qy, qz, qw⟩).e2⟩ = 1 := by
    rw [V3.length, hcol1, Real.sqrt_one]
  have hlen2 : V3.length ⟨(composeTQ t ⟨qx, qy, qz, qw⟩).e4,
      (composeTQ t ⟨qx, qy, qz, qw⟩).e5, (composeTQ t ⟨qx, qy, qz, qw⟩).e6⟩ = 1 := by
    rw [V3.length, hcol2, Real.sqrt_one]
  have hlen3 : V3.length ⟨(composeTQ t ⟨qx, qy, qz, qw⟩).e8,
      (composeTQ t ⟨qx, qy, qz, qw⟩).e9, (composeTQ t ⟨qx, qy, qz, qw⟩).e10⟩ = 1 := by
    rw [V3.length, hcol3, Real.sqrt_one]
  have hdet : (composeTQ t ⟨qx, qy, qz, qw⟩).determinant = 1 := by
    dsimp [composeTQ, M4.determinant]
    linear_combination (4 * (qx ^ 2 + qy ^ 2 + qz ^ 2)) * hq'
  unfold M4.decompose
  dsimp only
  rw [hdet, if_neg (by norm_num : ¬(1 : ℝ) < 0), hlen1, hlen2, hlen3]
  simp only [one_div_one, mul_one]
  exact shepperd_unit _ qx qy qz qw hq'
    (by dsimp [composeTQ]; ring) (by dsimp [composeTQ]; ring)
    (by dsimp [composeTQ]; ring) (by dsimp [composeTQ]; ring)
    (by dsimp [composeTQ]; ring) (by dsimp [composeTQ]; ring)
    (by dsimp [composeTQ]; ring) (by dsimp [composeTQ]; ring)
    (by dsimp [composeTQ]; ring)

/-- C7: both ray-reconstruction paths return unit-length directions.
Calibrated path: for every valid calibration (the `useIntrinsics` guard
satisfied, and the composed physical-camera pose `viewerMat * lensMat` a
rigid transform, i.e. a translation combined with a unit quaternion) and
every image UV, the direction has length exactly 1 — the camera-space
direction `(xCam, yCam, 1)` is non-zero, `decompose` extracts a unit
quaternion from the rigid pose (so rotating preserves the norm), and the
final `normalize` lands on a unit vector.  Uncalibrated NDC path: for any
camera with non-degenerate perspective divides whose unprojected near
point differs from the camera position, the normalized difference is unit
length. -/
theorem c7_ray_directions_unit
    (intr : CameraIntrinsicsR) (viewerMat : M4) (uImg vImg : ℝ)
    (huse : UseIntrinsics (some intr))
    (tc : V3) (qc : QuatT) (hqc : quatNormSq qc = 1)
    (hrigid : viewerMat.multiply
        (composeTQ (intr.lensTranslation.getD ⟨0, 0, 0⟩)
          (intr.lensRotation.getD ⟨0, 0, 0, 1⟩))
      = composeTQ tc qc)
    (cam : CameraM) (u2 v2 : ℝ)
    (hden1 : applyM4Den cam.projectionMatrixInverse (ndcPoint u2 v2) ≠ 0)
    (hden2 : applyM4Den cam.matrixWorld
        ((ndcPoint u2 v2).applyMatrix4 cam.projectionMatrixInverse) ≠ 0)
    (hne : (ndcPoint u2 v2).unproject cam ≠ cameraWorldPosition cam) :
    ((calibratedRay intr viewerMat uImg vImg).2).length = 1
    ∧ ((ndcFallbackRay cam u2 v2).2).length = 1 := by
  constructor
  · unfold calibratedRay
    dsimp only
    rw [hrigid]
    apply normalize_applyQ_unit
    · exact decompose_quat_unit tc qc hqc
    · exact v3_length_z1_ne_zero _ _
  · unfold ndcFallbackRay
    dsimp only
    apply v3_length_normalize
    exact v3_sub_length_ne_zero _ _ hne

/-- Witness for `c7_ray_directions_unit`: identity viewer pose, identity
lens pose, a complete 1920×1080 calibration, identity camera, image UV
`(1/2, 1/2)`. -/
theorem c7_ray_directions_unit_witness :
    ((calibratedRay introC idM4 (1/2) (1/2)).2).length = 1
    ∧ ((ndcFallbackRay ⟨idM4, idM4⟩ (1/2) (1/2)).2).length = 1 := by
  have h := c7_ray_directions_unit introC idM4 (1/2) (1/2)
    (by
      refine ⟨by norm_num [introC], by norm_num [introC], by norm_num [introC],
        by norm_num [introC], rfl, rfl⟩)
    ⟨0, 0, 0⟩ ⟨0, 0, 0, 1⟩
    (by norm_num [quatNormSq])
    (by
      simp only [introC, Option.getD_some]
      simp only [M4.multiply, composeTQ, idM4, M4.mk.injEq]
      norm_num)
    ⟨idM4, idM4⟩ (1/2) (1/2)
    (by norm_num [applyM4Den, idM4, ndcPoint])
    (by norm_num [applyM4Den, idM4, ndcPoint, V3.applyMatrix4])
    (by
      simp only [V3.unproject, V3.applyMatrix4, cameraWorldPosition, idM4,
        ndcPoint, ne_eq, V3.mk.injEq]
      norm_num)
  exact h
